import Mathlib

/-!
Verification of the client-side session and data-access layer of the
bigDoors single-page application (src/frontend/src/App.js), as a shallow
embedding in Lean 4.

The JavaScript code is event-driven React; here each handler is embedded
as a pure state-transition function.  Network effects are embedded by
passing the outcome of the HTTP call (`Except` for failure/success) as an
explicit argument, and the browser's `localStorage` is embedded as a
key-to-value map.  Requests themselves are embedded as records holding
method, URL and header list, built exactly the way the `api` object in
App.js builds them.
-/

namespace BigDoors

/-- The browser `localStorage`: a map from keys to stored strings. -/
def LocalStorage := String → Option String

/-- `localStorage.getItem(key)`. -/
def LocalStorage.getItem (ls : LocalStorage) (key : String) : Option String :=
  ls key

/-- `localStorage.setItem(key, value)`. -/
def LocalStorage.setItem (ls : LocalStorage) (key value : String) : LocalStorage :=
  fun k => if k = key then some value else ls k

/-- `localStorage.removeItem(key)`. -/
def LocalStorage.removeItem (ls : LocalStorage) (key : String) : LocalStorage :=
  fun k => if k = key then none else ls k

/-- A user record as returned by `GET /api/users/me` (App.js data model). -/
structure User where
  id : String
  name : String
  email : String
deriving DecidableEq, Repr

/-- The state held by `AuthProvider` (App.js lines 24-111): the three React
state cells (`currentUser`, `loading`, `token`) together with the browser's
`localStorage` that the provider reads and writes. -/
structure AuthState where
  localStorage : LocalStorage
  currentUser : Option User
  loading : Bool
  token : Option String

/-- `isAuthenticated: !!currentUser` from the `AuthProvider` value
(App.js line 102). -/
def isAuthenticated (s : AuthState) : Bool :=
  s.currentUser.isSome

/-- The `logout` operation (App.js lines 91-95): remove the `token` key
from localStorage, null the token state, null the current user. -/
def logout (s : AuthState) : AuthState :=
  { s with
    localStorage := s.localStorage.removeItem "token"
    token := none
    currentUser := none }

/-- The `login` operation (App.js lines 51-75).  The outcome of the
`POST /api/token` call is passed explicitly: `.ok access_token` when the
request succeeds with a token in its body, `.error detail` when it fails
(carrying the optional `error.response?.data?.detail`).  On success the
token is stored under `'token'`, the token state is set, and `true` is
returned; on failure the state is untouched and an error is thrown. -/
def login (postResult : Except (Option String) String) (s : AuthState) :
    AuthState × Except String Bool :=
  match postResult with
  | .ok access_token =>
      ({ s with
          localStorage := s.localStorage.setItem "token" access_token
          token := some access_token },
        .ok true)
  | .error detail =>
      (s, .error (detail.getD "Login failed"))

/-- `fetchCurrentUser` (App.js lines 37-49).  The outcome of the
`GET /api/users/me` call is passed explicitly.  On success the current
user is set from the response; on failure `logout()` runs; in both cases
the `finally` block clears `loading`. -/
def fetchCurrentUser (fetchResult : Except Unit User) (s : AuthState) : AuthState :=
  match fetchResult with
  | .ok u => { s with currentUser := some u, loading := false }
  | .error _ => { logout s with loading := false }

/-- A door record (App.js data model; created by `POST /api/doors`). -/
structure Door where
  id : String
  title : String
  description : String
  category : String
deriving DecidableEq, Repr

/-- A comment record as returned by the comments API. -/
structure Comment where
  id : String
  door_id : String
  text : String
deriving DecidableEq, Repr

/-- A notification record (`GET /api/notifications`). -/
structure Notification where
  id : String
  door_id : String
  message : String
  is_read : Bool
deriving DecidableEq, Repr

/-- An HTTP request as assembled by the `api` object: method, URL, and the
header list in the order the code supplies it. -/
structure Request where
  method : String
  url : String
  headers : List (String × String)
deriving DecidableEq, Repr

/-- `${BACKEND_URL}/api` (App.js line 15); `backend` stands for the
environment-supplied `REACT_APP_BACKEND_URL`. -/
def apiBase (backend : String) : String :=
  backend ++ "/api"

/-- `api.getHeaders` (App.js lines 115-117): the single Authorization
header `Bearer <token>`. -/
def getHeaders (token : String) : List (String × String) :=
  [("Authorization", "Bearer " ++ token)]

/-- The URL chosen by `api.getDoors` (App.js lines 121-123):
`category ? `.../doors?category=${category}` : `.../doors``.  A JavaScript
string is truthy exactly when it is non-null and non-empty, so the
conditional tests both. -/
def getDoorsUrl (backend : String) (category : Option String) : String :=
  match category with
  | some c => if c = "" then apiBase backend ++ "/doors"
              else apiBase backend ++ "/doors?category=" ++ c
  | none => apiBase backend ++ "/doors"

/-- The request sent by `api.getDoors` (App.js lines 119-130). -/
def getDoorsRequest (backend token : String) (category : Option String) : Request :=
  { method := "GET", url := getDoorsUrl backend category, headers := getHeaders token }

/-- The request sent by `api.getDoor` (App.js lines 132-140). -/
def getDoorRequest (backend token doorId : String) : Request :=
  { method := "GET"
    url := apiBase backend ++ "/doors/" ++ doorId
    headers := getHeaders token }

/-- The request sent by `api.createDoor` (App.js lines 142-164): a POST
whose headers spread `getHeaders(token).headers` and then add the
multipart Content-Type. -/
def createDoorRequest (backend token : String) : Request :=
  { method := "POST"
    url := apiBase backend ++ "/doors"
    headers := getHeaders token ++ [("Content-Type", "multipart/form-data")] }

/-- The request sent by `api.getComments` (App.js lines 166-174). -/
def getCommentsRequest (backend token doorId : String) : Request :=
  { method := "GET"
    url := apiBase backend ++ "/comments/" ++ doorId
    headers := getHeaders token }

/-- The request sent by `api.createComment` (App.js lines 176-184). -/
def createCommentRequest (backend token : String) : Request :=
  { method := "POST"
    url := apiBase backend ++ "/comments"
    headers := getHeaders token }

/-- The request sent by `api.getNotifications` (App.js lines 186-194). -/
def getNotificationsRequest (backend token : String) : Request :=
  { method := "GET"
    url := apiBase backend ++ "/notifications"
    headers := getHeaders token }

/-- The request sent by `api.markNotificationAsRead` (App.js lines 196-203). -/
def markNotificationAsReadRequest (backend token notificationId : String) : Request :=
  { method := "POST"
    url := apiBase backend ++ "/notifications/" ++ notificationId ++ "/read"
    headers := getHeaders token }

/-- The category filter of the Home view: `activeCategory` is `null`, `'A'`
or `'B'` (App.js lines 347 and 382-399), embedded as `Option Category`. -/
inductive Category where
  | A
  | B
deriving DecidableEq, Repr

/-- The string a category renders to when passed to `api.getDoors`. -/
def Category.toParam : Category → String
  | .A => "A"
  | .B => "B"

/-- The update `Home.fetchDoors` performs on the `doors` state
(App.js lines 355-366): on success the list is replaced by the response
data; on failure a toast is shown and the list is left as it was. -/
def fetchDoorsUpdate (result : Except Unit (List Door)) (doors : List Door) :
    List Door :=
  match result with
  | .ok data => data
  | .error _ => doors

/-- A character the JavaScript `String.prototype.trim` strips: ECMAScript
WhiteSpace (tab, vertical tab, form feed, space, no-break space, BOM, and
every Unicode Space_Separator code point: U+1680, U+2000 through U+200A,
U+202F, U+205F, U+3000) and LineTerminator (LF, CR, LS, PS) code points. -/
def isJsWhitespace (c : Char) : Bool :=
  c = ' ' || c = '\t' || c = '\n' || c = '\r' || c = '\x0b' || c = '\x0c'
    || c = '\u00A0' || c = '\u1680'
    || c = '\u2000' || c = '\u2001' || c = '\u2002' || c = '\u2003'
    || c = '\u2004' || c = '\u2005' || c = '\u2006' || c = '\u2007'
    || c = '\u2008' || c = '\u2009' || c = '\u200A'
    || c = '\u2028' || c = '\u2029' || c = '\u202F' || c = '\u205F'
    || c = '\u3000' || c = '\uFEFF'

/-- The JavaScript `String.prototype.trim`: strip leading and trailing
whitespace. -/
def jsTrim (s : String) : String :=
  ⟨(((s.data.dropWhile isJsWhitespace).reverse.dropWhile isJsWhitespace).reverse)⟩

/-- The outcome of one run of `handleSubmitComment`: the request body sent
(`none` when no request was made), the resulting `comments` state, and the
resulting `newComment` draft state. -/
structure SubmitOutcome where
  request : Option (String × String)
  comments : List Comment
  draft : String
deriving DecidableEq, Repr

/-- `handleSubmitComment` (App.js lines 1295-1318).  A whitespace-only
draft (`!newComment.trim()`) returns before any request.  Otherwise the
comment `{text, door_id}` is posted; on success the created comment is
appended (`setComments([...comments, createdComment])`) and the draft is
cleared; on failure both are left unchanged. -/
def handleSubmitComment (comments : List Comment) (draft doorId : String)
    (createResult : Except Unit Comment) : SubmitOutcome :=
  if jsTrim draft = "" then
    { request := none, comments := comments, draft := draft }
  else
    match createResult with
    | .ok created =>
        { request := some (draft, doorId)
          comments := comments ++ [created]
          draft := "" }
    | .error _ =>
        { request := some (draft, doorId), comments := comments, draft := draft }

/-- The delay passed to `setInterval` for notification polling
(App.js line 227).  It is the literal `30000`, taking no account of the
fetched notification list. -/
def notificationPollDelayMs (_notifications : List Notification) : Nat :=
  30000

/-- The views the Router can render. -/
inductive View where
  | home
  | login
  | register
  | mapView
  | addDoor
  | doorDetail (id : String)
  | notFound
  | navigate (target : String)
deriving DecidableEq, Repr

/-- `ProtectedRoute` (App.js lines 207-215): when not authenticated render
`<Navigate to="/login" />`, otherwise render the children. -/
def ProtectedRoute (isAuthenticated : Bool) (children : View) : View :=
  if !isAuthenticated then View.navigate "/login" else children

/-- The URL paths the `<Routes>` block distinguishes (App.js 1482-1511). -/
inductive Path where
  | root
  | login
  | register
  | map
  | addDoor
  | door (id : String)
  | other (s : String)
deriving DecidableEq, Repr

/-- The route table of `App` (App.js lines 1482-1511): `/map`, `/add-door`
and `/doors/:id` are wrapped in `ProtectedRoute`; the rest render
directly. -/
def appRoutes (isAuthenticated : Bool) : Path → View
  | .root => View.home
  | .login => View.login
  | .register => View.register
  | .map => ProtectedRoute isAuthenticated View.mapView
  | .addDoor => ProtectedRoute isAuthenticated View.addDoor
  | .door id => ProtectedRoute isAuthenticated (View.doorDetail id)
  | .other _ => View.notFound

/-! ## Helper lemmas -/

/-- Reading back the key just written to localStorage yields the value. -/
theorem LocalStorage.getItem_setItem_self (ls : LocalStorage) (k v : String) :
    (ls.setItem k v).getItem k = some v := by
  simp [LocalStorage.getItem, LocalStorage.setItem]

/-- Reading a key just removed from localStorage yields nothing. -/
theorem LocalStorage.getItem_removeItem_self (ls : LocalStorage) (k : String) :
    (ls.removeItem k).getItem k = none := by
  simp [LocalStorage.getItem, LocalStorage.removeItem]

/-- Removing the same key twice equals removing it once. -/
theorem LocalStorage.removeItem_idem (ls : LocalStorage) (k : String) :
    (ls.removeItem k).removeItem k = ls.removeItem k := by
  funext x
  by_cases h : x = k <;> simp [LocalStorage.removeItem, h]

/-! ## Claims -/

/-- C1: when the `POST /api/token` call succeeds with an `access_token`,
`login` stores it in localStorage under the key `'token'`, sets the token
state to it, and returns `true`; when the call fails, `login` throws and
the session state — the stored token included — is unchanged. -/
theorem login_persists_token_or_throws (t : String) (e : Option String)
    (s : AuthState) :
    ((login (.ok t) s).1.localStorage.getItem "token" = some t
      ∧ (login (.ok t) s).1.token = some t
      ∧ (login (.ok t) s).2 = .ok true)
    ∧ ((login (.error e) s).1 = s
      ∧ (login (.error e) s).2 = .error (e.getD "Login failed")) := by
  refine ⟨⟨?_, rfl, rfl⟩, rfl, rfl⟩
  simpa [login] using LocalStorage.getItem_setItem_self s.localStorage "token" t

/-- C2: when the session-restore fetch of `GET /api/users/me` fails,
`fetchCurrentUser` performs a logout: the `'token'` localStorage entry is
removed, the token state is null, and `currentUser` is null — so
`currentUser` is never set from a failed fetch. -/
theorem session_restore_failure_forces_logout (s : AuthState) :
    (fetchCurrentUser (.error ()) s).localStorage.getItem "token" = none
    ∧ (fetchCurrentUser (.error ()) s).token = none
    ∧ (fetchCurrentUser (.error ()) s).currentUser = none := by
  refine ⟨?_, rfl, rfl⟩
  simpa [fetchCurrentUser, logout] using
    LocalStorage.getItem_removeItem_self s.localStorage "token"

/-- C3: after `logout`, localStorage holds no `'token'` entry, the token
state is null, `currentUser` is null, and `isAuthenticated` is false. -/
theorem logout_clears_session (s : AuthState) :
    (logout s).localStorage.getItem "token" = none
    ∧ (logout s).token = none
    ∧ (logout s).currentUser = none
    ∧ isAuthenticated (logout s) = false := by
  refine ⟨?_, rfl, rfl, rfl⟩
  simpa [logout] using LocalStorage.getItem_removeItem_self s.localStorage "token"

/-- C4: the door-list fetch reflects the active category filter: with an
active category `c` the request URL is `/api/doors?category=c`, with no
active category it is `/api/doors`, and on success the displayed list is
exactly the server's response. -/
theorem doors_fetch_reflects_category_filter (backend token : String)
    (c : Category) (data doors : List Door) :
    (getDoorsRequest backend token (some c.toParam)).url
        = apiBase backend ++ "/doors?category=" ++ c.toParam
    ∧ (getDoorsRequest backend token none).url = apiBase backend ++ "/doors"
    ∧ fetchDoorsUpdate (.ok data) doors = data := by
  refine ⟨?_, rfl, rfl⟩
  cases c <;> rfl

/-- C5: when the creation request succeeds, comment submission appends the
created comment at the end of the visible list, so every previously
displayed comment keeps its position and relative order. -/
theorem comment_submission_appends (comments : List Comment)
    (draft doorId : String) (created : Comment) (h : jsTrim draft ≠ "") :
    (handleSubmitComment comments draft doorId (.ok created)).comments
      = comments ++ [created] := by
  simp [handleSubmitComment, h]

/-- Witness for C5 at a concrete draft and comment list. -/
theorem comment_submission_appends_witness :
    (handleSubmitComment [{ id := "1", door_id := "d", text := "old" }]
        "nice door" "d" (.ok { id := "2", door_id := "d", text := "nice door" })).comments
      = [{ id := "1", door_id := "d", text := "old" },
         { id := "2", door_id := "d", text := "nice door" }] :=
  comment_submission_appends _ _ _ _ (by decide)

/-- C6: every data-access operation of the `api` object sends an
`Authorization` header whose value is exactly `Bearer ` followed by the
token it was given. -/
theorem api_requests_carry_bearer_token (backend token doorId notificationId : String)
    (category : Option String) :
    (getDoorsRequest backend token category).headers.lookup "Authorization"
        = some ("Bearer " ++ token)
    ∧ (getDoorRequest backend token doorId).headers.lookup "Authorization"
        = some ("Bearer " ++ token)
    ∧ (createDoorRequest backend token).headers.lookup "Authorization"
        = some ("Bearer " ++ token)
    ∧ (getCommentsRequest backend token doorId).headers.lookup "Authorization"
        = some ("Bearer " ++ token)
    ∧ (createCommentRequest backend token).headers.lookup "Authorization"
        = some ("Bearer " ++ token)
    ∧ (getNotificationsRequest backend token).headers.lookup "Authorization"
        = some ("Bearer " ++ token)
    ∧ (markNotificationAsReadRequest backend token notificationId).headers.lookup
        "Authorization" = some ("Bearer " ++ token) := by
  refine ⟨?_, ?_, ?_, ?_, ?_, ?_, ?_⟩ <;>
    simp [getDoorsRequest, getDoorRequest, createDoorRequest, getCommentsRequest,
      createCommentRequest, getNotificationsRequest, markNotificationAsReadRequest,
      getHeaders, List.lookup]

/-- C7: while unauthenticated, navigating to `/map`, `/add-door` or
`/doors/:id` renders a redirect to `/login` instead of the protected view;
while authenticated, the protected view's children are rendered. -/
theorem protected_routes_require_session (id : String) :
    appRoutes false Path.map = View.navigate "/login"
    ∧ appRoutes false Path.addDoor = View.navigate "/login"
    ∧ appRoutes false (Path.door id) = View.navigate "/login"
    ∧ appRoutes true Path.map = View.mapView
    ∧ appRoutes true Path.addDoor = View.addDoor
    ∧ appRoutes true (Path.door id) = View.doorDetail id :=
  ⟨rfl, rfl, rfl, rfl, rfl, rfl⟩

/-- C8, counterexample: the notification polling delay is the literal
`30000` milliseconds, which is neither fifteen milliseconds nor fifteen
seconds. -/
theorem notification_poll_delay_not_fifteen :
    ¬(notificationPollDelayMs [] = 15 ∨ notificationPollDelayMs [] = 15000) := by
  decide

/-- C8, amended: the notification polling timer fires at a fixed interval
of thirty seconds (30000 milliseconds), independent of the number of
notification entries. -/
theorem notification_poll_delay_fixed_thirty_seconds
    (ns ms : List Notification) :
    notificationPollDelayMs ns = 30000
    ∧ notificationPollDelayMs ns = notificationPollDelayMs ms :=
  ⟨rfl, rfl⟩

/-- C9: `logout` is idempotent — applying it twice yields the same session
state as applying it once. -/
theorem logout_idempotent (s : AuthState) : logout (logout s) = logout s := by
  simp [logout, LocalStorage.removeItem_idem]

/-- C10: submitting a comment draft whose trim is empty performs no network
request and leaves the comments list and the draft text unchanged. -/
theorem blank_comment_draft_no_request (comments : List Comment)
    (draft doorId : String) (createResult : Except Unit Comment)
    (h : jsTrim draft = "") :
    handleSubmitComment comments draft doorId createResult
      = { request := none, comments := comments, draft := draft } := by
  simp [handleSubmitComment, h]

/-- Witness for C10 at a concrete whitespace-only draft. -/
theorem blank_comment_draft_no_request_witness :
    handleSubmitComment [] "   " "d" (.error ())
      = { request := none, comments := [], draft := "   " } :=
  blank_comment_draft_no_request [] "   " "d" (.error ()) (by decide)

end BigDoors
